import Mathlib

/-!
Verification of the HMAC request-signing client in
src/samples/Sample.Python/hmac_client.py (HashGate).

The Python client delegates hashing to the standard library; the
embedding therefore includes executable models of UTF-8 encoding,
SHA-256, HMAC-SHA256 and standard base64 encoding, all over byte lists
(Nat values below 256).  All recursion is structural so every
definition evaluates inside the kernel.
-/

set_option maxRecDepth 100000

namespace HashGate

/-- UTF-8 encoding of a single character (code point to byte list). -/
def utf8Char (c : Char) : List Nat :=
  let n := c.toNat
  if n < 0x80 then [n]
  else if n < 0x800 then [0xC0 + n / 64, 0x80 + n % 64]
  else if n < 0x10000 then
    [0xE0 + n / 4096, 0x80 + n / 64 % 64, 0x80 + n % 64]
  else
    [0xF0 + n / 262144, 0x80 + n / 4096 % 64, 0x80 + n / 64 % 64, 0x80 + n % 64]

/-- UTF-8 encoding of a string, the model of Python str.encode applied with the utf-8 codec. -/
def utf8 (s : String) : List Nat :=
  (s.data.map utf8Char).flatten

/-- FIPS 180-4 round constant table of SHA-256, written in decimal. -/
def shaK : List Nat :=
  [1116352408, 1899447441, 3049323471, 3921009573, 961987163, 1508970993,
   2453635748, 2870763221, 3624381080, 310598401, 607225278, 1426881987,
   1925078388, 2162078206, 2614888103, 3248222580, 3835390401, 4022224774,
   264347078, 604807628, 770255983, 1249150122, 1555081692, 1996064986,
   2554220882, 2821834349, 2952996808, 3210313671, 3336571891, 3584528711,
   113926993, 338241895, 666307205, 773529912, 1294757372, 1396182291,
   1695183700, 1986661051, 2177026350, 2456956037, 2730485921, 2820302411,
   3259730800, 3345764771, 3516065817, 3600352804, 4094571909, 275423344,
   430227734, 506948616, 659060556, 883997877, 958139571, 1322822218,
   1537002063, 1747873779, 1955562222, 2024104815, 2227730452, 2361852424,
   2428436474, 2756734187, 3204031479, 3329325298]

/-- FIPS 180-4 initial hash state of SHA-256, written in decimal. -/
def shaH0 : List Nat :=
  [1779033703, 3144134277, 1013904242, 2773480762,
   1359893119, 2600822924, 528734635, 1541459225]

/-- Rotate a value right by n bit positions within 32 bits. -/
def rotr32 (n x : Nat) : Nat :=
  ((x >>> n) ||| (x <<< (32 - n))) % 4294967296

/-- Big-endian 4-byte encoding of a 32-bit word. -/
def be32 (n : Nat) : List Nat :=
  [n / 16777216 % 256, n / 65536 % 256, n / 256 % 256, n % 256]

/-- Big-endian 8-byte encoding of a 64-bit length. -/
def be64 (n : Nat) : List Nat :=
  [n / 72057594037927936 % 256, n / 281474976710656 % 256,
   n / 1099511627776 % 256, n / 4294967296 % 256,
   n / 16777216 % 256, n / 65536 % 256, n / 256 % 256, n % 256]

/-- Group a 64-byte chunk into 16 big-endian 32-bit words. -/
def toWords : List Nat → List Nat
  | a :: b :: c :: d :: rest => (a * 16777216 + b * 65536 + c * 256 + d) :: toWords rest
  | _ => []

/-- Extend 16 schedule words to 64 (SHA-256 message schedule). -/
def extendW (w0 : List Nat) : List Nat :=
  (List.range 48).foldl (fun w _ =>
    let i := w.length
    let w15 := w.getD (i - 15) 0
    let w2 := w.getD (i - 2) 0
    let s0 := rotr32 7 w15 ^^^ rotr32 18 w15 ^^^ (w15 >>> 3)
    let s1 := rotr32 17 w2 ^^^ rotr32 19 w2 ^^^ (w2 >>> 10)
    w ++ [(w.getD (i - 16) 0 + s0 + w.getD (i - 7) 0 + s1) % 4294967296]) w0

/-- One round of the SHA-256 compression loop over the state [a,b,c,d,e,f,g,h]. -/
def shaRound (w : List Nat) (st : List Nat) (i : Nat) : List Nat :=
  let a := st.getD 0 0
  let b := st.getD 1 0
  let c := st.getD 2 0
  let d := st.getD 3 0
  let e := st.getD 4 0
  let f := st.getD 5 0
  let g := st.getD 6 0
  let h := st.getD 7 0
  let s1 := rotr32 6 e ^^^ rotr32 11 e ^^^ rotr32 25 e
  let ch := (e &&& f) ^^^ ((e ^^^ 4294967295) &&& g)
  let t1 := (h + s1 + ch + shaK.getD i 0 + w.getD i 0) % 4294967296
  let s0 := rotr32 2 a ^^^ rotr32 13 a ^^^ rotr32 22 a
  let maj := (a &&& b) ^^^ (a &&& c) ^^^ (b &&& c)
  let t2 := (s0 + maj) % 4294967296
  [(t1 + t2) % 4294967296, a, b, c, (d + t1) % 4294967296, e, f, g]

/-- Compress one 64-byte chunk into the running hash state. -/
def shaCompress (h : List Nat) (chunk : List Nat) : List Nat :=
  let w := extendW (toWords chunk)
  let st := (List.range 64).foldl (shaRound w) h
  List.zipWith (fun x y => (x + y) % 4294967296) h st

/-- Fold the compression function over successive 64-byte chunks; the first argument counts remaining chunks. -/
def shaChunks : Nat → List Nat → List Nat → List Nat
  | 0, _, h => h
  | n + 1, msg, h => shaChunks n (msg.drop 64) (shaCompress h (msg.take 64))

/-- SHA-256 of a byte list, the model of hashlib.sha256(...).digest(). -/
def sha256 (msg : List Nat) : List Nat :=
  let padded := msg ++ [0x80] ++
    List.replicate ((120 - (msg.length + 1) % 64) % 64) 0 ++ be64 (msg.length * 8)
  ((shaChunks (padded.length / 64) padded shaH0).map be32).flatten

/-- HMAC-SHA256 of a message under a key, the model of hmac.new(key, msg, hashlib.sha256).digest(). -/
def hmacSha256 (key msg : List Nat) : List Nat :=
  let k0 := if 64 < key.length then sha256 key else key
  let k := k0 ++ List.replicate (64 - k0.length) 0
  sha256 ((k.map (fun b => b ^^^ 0x5c)) ++ sha256 ((k.map (fun b => b ^^^ 0x36)) ++ msg))

/-- Alphabet of standard base64. -/
def b64Chars : List Char :=
  "ABCDEFGHIJKLMNOPQRSTUVWXYZabcdefghijklmnopqrstuvwxyz0123456789+/".data

/-- Character for a 6-bit group. -/
def b64c (n : Nat) : Char :=
  b64Chars.getD n 'A'

/-- Standard base64 encoding with padding, the model of base64.b64encode(...).decode(). -/
def b64encode : List Nat → String
  | [] => ""
  | [a] =>
    let n := a * 65536
    String.mk [b64c (n / 262144 % 64), b64c (n / 4096 % 64)] ++ "=="
  | [a, b] =>
    let n := a * 65536 + b * 256
    String.mk [b64c (n / 262144 % 64), b64c (n / 4096 % 64), b64c (n / 64 % 64)] ++ "="
  | a :: b :: c :: rest =>
    let n := a * 65536 + b * 256 + c
    String.mk [b64c (n / 262144 % 64), b64c (n / 4096 % 64), b64c (n / 64 % 64), b64c (n % 64)]
      ++ b64encode rest

/-- Model of Python str.upper for the ASCII range used by HTTP verbs. -/
def pyUpper (s : String) : String :=
  String.mk (s.data.map Char.toUpper)

/-- Model of Python sep.join applied to a list of strings. -/
def pyJoin (sep : String) : List String → String
  | [] => ""
  | [x] => x
  | x :: y :: xs => x ++ sep ++ pyJoin sep (y :: xs)

/-- Model of Python s.rstrip applied with the slash character. -/
def pyRstripSlash (s : String) : String :=
  String.mk ((s.data.reverse.dropWhile (fun c => c == '/')).reverse)

/-- Python truthiness of an optional string: None and the empty string are falsy. -/
def pyTruthy : Option String → Bool
  | none => false
  | some s => !(s == "")

/-- Split a character list at the first occurrence of a separator. -/
def splitFirst (sep : Char) : List Char → Option (List Char × List Char)
  | [] => none
  | c :: cs =>
    if c = sep then some ([], cs)
    else
      match splitFirst sep cs with
      | none => none
      | some (a, b) => some (c :: a, b)

/-- Characters allowed in a URL scheme after the leading letter. -/
def isSchemeChar (c : Char) : Bool :=
  c.isAlphanum || c == '+' || c == '-' || c == '.'

/-- Result of splitting a URL, mirroring the fields of urllib ParseResult. -/
structure UrlParts where
  scheme : String
  netloc : String
  path : String
  params : String
  query : String
  fragment : String
deriving DecidableEq

/-- Characters urllib removes before splitting a URL: every leading C0 control
or space character is stripped, and every tab, carriage return and newline is
removed from anywhere in the URL. -/
def cleanUrl (cs : List Char) : List Char :=
  (cs.dropWhile (fun c => c.toNat ≤ 32)).filter
    (fun c => !(c == '\t' || c == '\r' || c == '\n'))

/-- Split the params component from the last segment of a path, as urllib does
for urlparse: at the first semicolon at or after the last slash, or at the
first semicolon when the path has no slash; no split when the only semicolons
precede the last slash. -/
def splitParams (cs : List Char) : List Char × List Char :=
  if cs.contains ';' then
    let start :=
      if cs.contains '/' then
        cs.length - 1 - ((List.findIdx? (fun x => x == '/') cs.reverse).getD 0)
      else 0
    match List.findIdx? (fun x => x == ';') (cs.drop start) with
    | some j => (cs.take (start + j), cs.drop (start + j + 1))
    | none => (cs, [])
  else (cs, [])

/-- Splitting pipeline of urllib.parse.urlparse on an already cleaned character
list: the scheme is split off before a colon when well formed, the netloc
follows a double slash and runs to the next slash, question mark or hash, the
fragment follows the first hash, the query the first question mark, and the
params component is split from the last path segment. -/
def urlparseCore (cs : List Char) : UrlParts :=
  let schemeRest :=
    match splitFirst ':' cs with
    | some (before, after) =>
      if !before.isEmpty && (before.headD 'a').isAlpha && before.all isSchemeChar then
        (before.map Char.toLower, after)
      else ([], cs)
    | none => ([], cs)
  let netlocRest :=
    match schemeRest.2 with
    | '/' :: '/' :: r =>
      (r.takeWhile (fun c => !(c == '/' || c == '?' || c == '#')),
       r.dropWhile (fun c => !(c == '/' || c == '?' || c == '#')))
    | r => ([], r)
  let restFragment :=
    match splitFirst '#' netlocRest.2 with
    | some (a, b) => (a, b)
    | none => (netlocRest.2, [])
  let pathQuery :=
    match splitFirst '?' restFragment.1 with
    | some (a, b) => (a, b)
    | none => (restFragment.1, [])
  let pathParams := splitParams pathQuery.1
  ⟨String.mk schemeRest.1, String.mk netlocRest.1, String.mk pathParams.1,
   String.mk pathParams.2, String.mk pathQuery.2, String.mk restFragment.2⟩

/-- Model of urllib.parse.urlparse on the URL strings the client builds: the
URL is cleaned and split. This model is total; the ValueError urllib raises
for an authority with an unbalanced square bracket is modelled separately by
urlparseE, which also marks the validation paths this model does not decide. -/
def urlparse (url : String) : UrlParts :=
  urlparseCore (cleanUrl url.data)

/-- Outcome of the fallible model of urllib.parse.urlparse: a parse result, the
ValueError raised for an authority holding an unbalanced square bracket, or a
marker for the two validation paths the model does not decide, namely
bracketed-host validation and the NFKC check on a non-ASCII authority. -/
inductive UrlParseOutcome where
  | ok (parts : UrlParts)
  | invalidIPv6
  | unmodelled
deriving DecidableEq

/-- Fallible model of urllib.parse.urlparse: an authority with a square bracket
on one side only raises ValueError Invalid IPv6 URL; an authority with a
balanced bracket pair or with non-ASCII characters enters a validation path
the model leaves undecided; every other URL parses to the total result. -/
def urlparseE (url : String) : UrlParseOutcome :=
  let parts := urlparse url
  let nl := parts.netloc.data
  if nl.contains '[' && !nl.contains ']' then UrlParseOutcome.invalidIPv6
  else if nl.contains ']' && !nl.contains '[' then UrlParseOutcome.invalidIPv6
  else if nl.contains '[' then UrlParseOutcome.unmodelled
  else if nl.all (fun c => c.toNat ≤ 127) then UrlParseOutcome.ok parts
  else UrlParseOutcome.unmodelled

/-- Scheme-name constant of the client. -/
def DEFAULT_SCHEME_NAME : String := "HMAC"

/-- Timestamp header name constant of the client. -/
def TIME_STAMP_HEADER_NAME : String := "x-timestamp"

/-- Content-hash header name constant of the client. -/
def CONTENT_HASH_HEADER_NAME : String := "x-content-sha256"

/-- Precomputed content hash of an empty body, as in the client. -/
def EMPTY_CONTENT_HASH : String := "47DEQpj8HBSa+/TImW+5JCeuQeRkm5NMpJWZG3hSuFU="

/-- Fixed ordered list of signed header names, as in the client. -/
def DEFAULT_SIGNED_HEADERS : List String :=
  ["host", TIME_STAMP_HEADER_NAME, CONTENT_HASH_HEADER_NAME]

/-- State of an HmacClient instance: the stored client id, the UTF-8 encoded
secret, the normalized base URL, and an opaque token standing for the HTTP
session object, which the signing path never reads. -/
structure HmacClient where
  client : String
  secret : List Nat
  base_url : String
  session : Nat

/-- Model of the constructor: the secret is UTF-8 encoded and trailing slashes
are stripped from the base URL. -/
def mkHmacClient (client secret base_url : String) (session : Nat) : HmacClient :=
  { client := client, secret := utf8 secret,
    base_url := pyRstripSlash base_url, session := session }

/-- Model of create_string_to_sign: upper-cased method, path with query and the
semicolon-joined header values, separated by newlines. -/
def create_string_to_sign (method path_and_query : String) (header_values : List String) : String :=
  let upper_method := pyUpper method
  let header_string := pyJoin ";" header_values
  upper_method ++ "\n" ++ path_and_query ++ "\n" ++ header_string

/-- Model of generate_signature: base64 of the HMAC-SHA256 of the UTF-8 encoded
string to sign under the stored secret. -/
def HmacClient.generate_signature (c : HmacClient) (string_to_sign : String) : String :=
  b64encode (hmacSha256 c.secret (utf8 string_to_sign))

/-- Model of generate_authorization_header: scheme, client id, semicolon-joined
signed header names and the signature, in the fixed textual layout. -/
def HmacClient.generate_authorization_header
    (c : HmacClient) (signed_headers : List String) (signature : String) : String :=
  let signed_headers_string := pyJoin ";" signed_headers
  DEFAULT_SCHEME_NAME ++ " Client=" ++ c.client ++ "&SignedHeaders=" ++
    signed_headers_string ++ "&Signature=" ++ signature

/-- Model of calculate_content_hash: the falsy inputs None and the empty string
yield the precomputed constant, any other string is hashed and base64 encoded. -/
def calculate_content_hash : Option String → String
  | none => EMPTY_CONTENT_HASH
  | some s => if s = "" then EMPTY_CONTENT_HASH else b64encode (sha256 (utf8 s))

/-- Model of create_authenticated_headers with the wall clock passed explicitly
as the integer Unix time read by the Python code. -/
def HmacClient.create_authenticated_headers
    (c : HmacClient) (now : Nat) (method path : String) (content : Option String) :
    List (String × String) :=
  let url := urlparse (c.base_url ++ path)
  let host := url.netloc
  let path_and_query := url.path ++ (if url.query = "" then "" else "?" ++ url.query)
  let timestamp := toString now
  let content_hash := calculate_content_hash content
  let header_values := [host, timestamp, content_hash]
  let string_to_sign := create_string_to_sign method path_and_query header_values
  let signature := c.generate_signature string_to_sign
  let authorization_header := c.generate_authorization_header DEFAULT_SIGNED_HEADERS signature
  let headers := [("Host", host), (TIME_STAMP_HEADER_NAME, timestamp),
    (CONTENT_HASH_HEADER_NAME, content_hash), ("Authorization", authorization_header)]
  if pyTruthy content then headers ++ [("Content-Type", "application/json")] else headers

/-- Outcome of the fallible model of create_authenticated_headers: the header
mapping, a raised ValueError carrying its message, or the marker for a URL
validation path the urlparse model leaves undecided. -/
inductive HeadersOutcome where
  | ok (headers : List (String × String))
  | valueError (msg : String)
  | unmodelled
deriving DecidableEq

/-- Model of create_authenticated_headers with the urlparse error path made
explicit: when the fallible URL parse raises, the ValueError propagates out of
the Python function; when it succeeds, the computation is exactly the one of
create_authenticated_headers, which recomputes the same successful parse. -/
def HmacClient.create_authenticated_headersE
    (c : HmacClient) (now : Nat) (method path : String) (content : Option String) :
    HeadersOutcome :=
  match urlparseE (c.base_url ++ path) with
  | UrlParseOutcome.ok _ =>
    HeadersOutcome.ok (c.create_authenticated_headers now method path content)
  | UrlParseOutcome.invalidIPv6 => HeadersOutcome.valueError "Invalid IPv6 URL"
  | UrlParseOutcome.unmodelled => HeadersOutcome.unmodelled

/-- Boolean prefix test on the underlying character lists. -/
def strStartsWith (p s : String) : Bool :=
  p.data.isPrefixOf s.data

/-- Header mapping of the frozen-clock scenario: client TestClient, base URL
host api.example.com, GET /api/test, no body, clock at 1234567890. -/
def scenarioHeaders : List (String × String) :=
  (mkHmacClient "TestClient" "TestSecret" "https://api.example.com" 0).create_authenticated_headers
    1234567890 "GET" "/api/test" none

theorem strAppend_assoc (a b c : String) : a ++ b ++ c = a ++ (b ++ c) := by
  apply String.ext
  simp [String.data_append, List.append_assoc]

/-- Validation of the SHA-256 and base64 models on the empty input. -/
theorem sha256_empty_vector :
    b64encode (sha256 []) = "47DEQpj8HBSa+/TImW+5JCeuQeRkm5NMpJWZG3hSuFU=" := by decide

/-- Validation of the SHA-256 and UTF-8 models on the standard abc vector. -/
theorem sha256_abc_vector :
    b64encode (sha256 (utf8 "abc")) = "ungWv48Bz+pBQUDeXa4iI7ADYaOWF3qctBD/YfIAFa0=" := by
  decide

/-- Validation of the HMAC-SHA256 model against RFC 4231 test case 2. -/
theorem hmac_rfc4231_case2 :
    b64encode (hmacSha256 (utf8 "Jefe") (utf8 "what do ya want for nothing?"))
      = "W9zBRr9gdU5qBCQmCJV1x1oAPwidJzmDnexYuWTsOEM=" := by decide

/-- Validation of the urlparse model on a plain https URL. -/
theorem urlparse_plain :
    urlparse "https://api.example.com/api/test"
      = ⟨"https", "api.example.com", "/api/test", "", "", ""⟩ := by decide

/-- Validation of the urlparse model on a URL with port and query. -/
theorem urlparse_with_query :
    urlparse "https://localhost:7134/api/users?page=2&size=10"
      = ⟨"https", "localhost:7134", "/api/users", "", "page=2&size=10", ""⟩ := by decide

/-- Validation of the cleaning step: leading control and space characters are
stripped and embedded tabs and newlines removed, as urllib does. -/
theorem urlparse_cleaning :
    urlparse "  \x01https://a b.com/x\ty\n" = ⟨"https", "a b.com", "/xy", "", "", ""⟩ := by
  decide

/-- Validation of the params split: a semicolon in the last path segment starts
the params component, while one before the last slash does not. -/
theorem urlparse_params :
    urlparse "https://h/a;x=1?q#f" = ⟨"https", "h", "/a", "x=1", "q", "f"⟩
    ∧ urlparse "https://h/a;x/b" = ⟨"https", "h", "/a;x/b", "", "", ""⟩
    ∧ urlparse "https://h/a/b;p;q" = ⟨"https", "h", "/a/b", "p;q", "", ""⟩ := by
  exact ⟨by decide, by decide, by decide⟩

/-- Validation of the fallible urlparse model: an unbalanced bracket in the
authority is the ValueError path, a balanced bracket pair and a non-ASCII
authority are left undecided, and a plain authority parses. -/
theorem urlparseE_cases :
    urlparseE "https://[x/api/test" = UrlParseOutcome.invalidIPv6
    ∧ urlparseE "https://[::1]/x" = UrlParseOutcome.unmodelled
    ∧ urlparseE "https://api.example.com/api/test"
        = UrlParseOutcome.ok (urlparse "https://api.example.com/api/test") := by
  exact ⟨by decide, by decide, by decide⟩

/-- C1: create_string_to_sign returns the upper-cased method, the path and the
semicolon-joined header values, newline-delimited with no further
transformation, and the concrete example from the spec evaluates as stated. -/
theorem c1_create_string_to_sign_format :
    (∀ m p a b c : String,
      create_string_to_sign m p [a, b, c]
        = pyUpper m ++ "\n" ++ p ++ "\n" ++ a ++ ";" ++ b ++ ";" ++ c)
    ∧ create_string_to_sign "get" "/api/test" ["example.com", "1234567890", "abc123"]
        = "GET\n/api/test\nexample.com;1234567890;abc123" := by
  constructor
  · intro m p a b c
    simp [create_string_to_sign, pyJoin, strAppend_assoc]
  · decide

/-- C2: generate_signature is the standard base64 encoding of the HMAC-SHA256
digest keyed with the UTF-8 encoded secret over the UTF-8 encoded string to
sign; the HMAC-SHA256 model is pinned against RFC 4231 test case 2. -/
theorem c2_generate_signature_hmac :
    (∀ (cid k u : String) (sess : Nat) (s : String),
      (mkHmacClient cid k u sess).generate_signature s
        = b64encode (hmacSha256 (utf8 k) (utf8 s)))
    ∧ (mkHmacClient "client" "Jefe" "https://h" 0).generate_signature
        "what do ya want for nothing?"
        = "W9zBRr9gdU5qBCQmCJV1x1oAPwidJzmDnexYuWTsOEM=" := by
  exact ⟨fun _ _ _ _ _ => rfl, by decide⟩

/-- C3: calculate_content_hash maps both None and the empty string to the
constant EMPTY_CONTENT_HASH, which equals the base64 encoding of the SHA-256
digest of the zero-length byte sequence and the literal from the code. -/
theorem c3_empty_content_hash :
    calculate_content_hash none = EMPTY_CONTENT_HASH
    ∧ calculate_content_hash (some "") = EMPTY_CONTENT_HASH
    ∧ EMPTY_CONTENT_HASH = b64encode (sha256 [])
    ∧ EMPTY_CONTENT_HASH = "47DEQpj8HBSa+/TImW+5JCeuQeRkm5NMpJWZG3hSuFU=" := by
  exact ⟨rfl, by decide, by decide, rfl⟩

/-- C4: for every non-empty content string the hash is the base64 encoding of
the SHA-256 digest of exactly its UTF-8 byte sequence. -/
theorem c4_content_hash_nonempty (s : String) (h : s ≠ "") :
    calculate_content_hash (some s) = b64encode (sha256 (utf8 s)) := by
  simp [calculate_content_hash, h]

/-- Witness for C4 at the concrete content abc. -/
theorem c4_content_hash_nonempty_witness :
    "abc" ≠ "" ∧ calculate_content_hash (some "abc") = b64encode (sha256 (utf8 "abc")) :=
  ⟨by decide, c4_content_hash_nonempty "abc" (by decide)⟩

/-- C5: generate_authorization_header concatenates the scheme, client id,
semicolon-joined signed header names and signature with no encoding of any
value, and the concrete example from the spec evaluates as stated. -/
theorem c5_authorization_header_format :
    (∀ (cid k u : String) (sess : Nat) (hs : List String) (sig : String),
      (mkHmacClient cid k u sess).generate_authorization_header hs sig
        = "HMAC Client=" ++ cid ++ "&SignedHeaders=" ++ pyJoin ";" hs
            ++ "&Signature=" ++ sig)
    ∧ (mkHmacClient "TestClient" "s" "https://h" 0).generate_authorization_header
        ["host", "x-timestamp", "x-content-sha256"] "test-signature"
        = "HMAC Client=TestClient&SignedHeaders=host;x-timestamp;x-content-sha256&Signature=test-signature" := by
  constructor
  · intro cid k u sess hs sig
    have h : ("HMAC Client=" : String) = "HMAC" ++ " Client=" := rfl
    simp [HmacClient.generate_authorization_header, mkHmacClient, DEFAULT_SCHEME_NAME, h,
      strAppend_assoc]
  · decide

/-- C6: the mapping holds exactly the keys Host, x-timestamp, x-content-sha256
and Authorization, plus Content-Type with value application/json exactly when
the body is truthy; in the frozen-clock scenario the timestamp, content hash,
authorization prefix and absence of Content-Type are as specified. -/
theorem c6_header_set :
    (∀ (c : HmacClient) (now : Nat) (m p : String) (b : Option String),
      (c.create_authenticated_headers now m p b).map Prod.fst
        = ["Host", TIME_STAMP_HEADER_NAME, CONTENT_HASH_HEADER_NAME, "Authorization"]
          ++ (if pyTruthy b then ["Content-Type"] else [])
      ∧ List.lookup "Content-Type" (c.create_authenticated_headers now m p b)
          = (if pyTruthy b then some "application/json" else none))
    ∧ (List.lookup TIME_STAMP_HEADER_NAME scenarioHeaders = some "1234567890"
      ∧ List.lookup CONTENT_HASH_HEADER_NAME scenarioHeaders = some EMPTY_CONTENT_HASH
      ∧ (List.lookup "Authorization" scenarioHeaders).any
          (strStartsWith "HMAC Client=TestClient") = true
      ∧ List.lookup "Content-Type" scenarioHeaders = none) := by
  constructor
  · intro c now m p b
    cases hb : pyTruthy b <;>
      simp [HmacClient.create_authenticated_headers, hb, List.lookup] <;> rfl
  · refine ⟨by decide, by decide, by decide, by decide⟩

/-- C7: the header values feeding the string to sign are assembled in the fixed
order host, timestamp, content hash, and the SignedHeaders component of the
emitted Authorization header is always the fixed ordered list host,
x-timestamp, x-content-sha256. -/
theorem c7_fixed_signed_header_order
    (c : HmacClient) (now : Nat) (m p : String) (b : Option String) :
    DEFAULT_SIGNED_HEADERS = ["host", "x-timestamp", "x-content-sha256"]
    ∧ List.lookup "Authorization" (c.create_authenticated_headers now m p b)
        = some (c.generate_authorization_header DEFAULT_SIGNED_HEADERS
            (c.generate_signature (create_string_to_sign m
              ((urlparse (c.base_url ++ p)).path ++
                (if (urlparse (c.base_url ++ p)).query = "" then ""
                 else "?" ++ (urlparse (c.base_url ++ p)).query))
              [(urlparse (c.base_url ++ p)).netloc, toString now,
               calculate_content_hash b]))) := by
  refine ⟨rfl, ?_⟩
  cases hb : pyTruthy b <;>
    simp [HmacClient.create_authenticated_headers, hb, List.lookup] <;> rfl

/-- C8: create_authenticated_headers depends only on the stored client id,
secret and base URL together with the explicit clock and arguments, so two
clients holding the same credential and base URL produce identical header
mappings, including identical signatures, at a fixed clock value. -/
theorem c8_deterministic (c1 c2 : HmacClient) (h1 : c1.client = c2.client)
    (h2 : c1.secret = c2.secret) (h3 : c1.base_url = c2.base_url)
    (now : Nat) (m p : String) (b : Option String) :
    c1.create_authenticated_headers now m p b = c2.create_authenticated_headers now m p b := by
  cases c1
  cases c2
  cases h1
  cases h2
  cases h3
  rfl

/-- Witness for C8: two clients built from the same credential but distinct
session tokens sign a concrete request identically. -/
theorem c8_deterministic_witness :
    (mkHmacClient "A" "B" "https://h" 0).create_authenticated_headers 5 "GET" "/x" none
      = (mkHmacClient "A" "B" "https://h" 1).create_authenticated_headers 5 "GET" "/x" none :=
  c8_deterministic _ _ rfl rfl rfl 5 "GET" "/x" none

/-- Counterexample to C9 as frozen: with base URL https://[x the combined URL
has the authority [x, whose square bracket is unbalanced, so the Python client
raises ValueError Invalid IPv6 URL inside urlparse instead of returning a
header mapping; the fallible model returns exactly that error at this input. -/
theorem c9_totality_counterexample :
    (mkHmacClient "TestClient" "TestSecret" "https://[x" 0).create_authenticated_headersE
      1234567890 "GET" "/api/test" none = HeadersOutcome.valueError "Invalid IPv6 URL" := by
  decide

/-- C9 amended: signing raises no domain-specific error and returns the header
mapping with the four required entries for every well-formed input whose
combined URL the URL parser accepts, in particular whenever the parsed
authority is ASCII and bracket-free; a base URL whose authority has an
unbalanced square bracket instead raises ValueError from urlparse. An empty
client id and secret still yield a syntactically valid header set, whose
Authorization value matches an independent implementation. -/
theorem c9_signing_total_amended
    (cid k u : String) (sess now : Nat) (m p : String) (b : Option String)
    (h1 : (urlparse (pyRstripSlash u ++ p)).netloc.data.contains '[' = false)
    (h2 : (urlparse (pyRstripSlash u ++ p)).netloc.data.contains ']' = false)
    (h3 : (urlparse (pyRstripSlash u ++ p)).netloc.data.all (fun c => c.toNat ≤ 127) = true) :
    (mkHmacClient cid k u sess).create_authenticated_headersE now m p b
      = HeadersOutcome.ok ((mkHmacClient cid k u sess).create_authenticated_headers now m p b)
    ∧ (List.lookup "Host"
        ((mkHmacClient cid k u sess).create_authenticated_headers now m p b)).isSome = true
    ∧ (List.lookup TIME_STAMP_HEADER_NAME
        ((mkHmacClient cid k u sess).create_authenticated_headers now m p b)).isSome = true
    ∧ (List.lookup CONTENT_HASH_HEADER_NAME
        ((mkHmacClient cid k u sess).create_authenticated_headers now m p b)).isSome = true
    ∧ (List.lookup "Authorization"
        ((mkHmacClient cid k u sess).create_authenticated_headers now m p b)).isSome = true
    ∧ (mkHmacClient "" "" "https://api.example.com" 0).create_authenticated_headersE
        1234567890 "GET" "/api/test" none
        = HeadersOutcome.ok ((mkHmacClient "" "" "https://api.example.com" 0).create_authenticated_headers
            1234567890 "GET" "/api/test" none)
    ∧ List.lookup "Authorization"
        ((mkHmacClient "" "" "https://api.example.com" 0).create_authenticated_headers
          1234567890 "GET" "/api/test" none)
        = some "HMAC Client=&SignedHeaders=host;x-timestamp;x-content-sha256&Signature=Lusm5IfJG3OXgA7B2QIskK21WZ3lS75V59yDNd0ZfQo=" := by
  have hkeys : (List.lookup "Host"
        ((mkHmacClient cid k u sess).create_authenticated_headers now m p b)).isSome = true
      ∧ (List.lookup TIME_STAMP_HEADER_NAME
        ((mkHmacClient cid k u sess).create_authenticated_headers now m p b)).isSome = true
      ∧ (List.lookup CONTENT_HASH_HEADER_NAME
        ((mkHmacClient cid k u sess).create_authenticated_headers now m p b)).isSome = true
      ∧ (List.lookup "Authorization"
        ((mkHmacClient cid k u sess).create_authenticated_headers now m p b)).isSome = true := by
    cases hb : pyTruthy b <;>
      simp [HmacClient.create_authenticated_headers, hb, List.lookup] <;>
      exact ⟨rfl, rfl, rfl⟩
  refine ⟨?_, hkeys.1, hkeys.2.1, hkeys.2.2.1, hkeys.2.2.2, by decide, by decide⟩
  have h1m : '[' ∉ (urlparse (pyRstripSlash u ++ p)).netloc.data := by simpa using h1
  have h2m : ']' ∉ (urlparse (pyRstripSlash u ++ p)).netloc.data := by simpa using h2
  simp [HmacClient.create_authenticated_headersE, urlparseE, mkHmacClient, h1m, h2m, h3]

/-- Witness for the amended C9 at the frozen-clock scenario input, discharging
the bracket-free ASCII authority hypotheses by evaluation. -/
theorem c9_signing_total_amended_witness :
    (urlparse (pyRstripSlash "https://api.example.com" ++ "/api/test")).netloc.data.contains '['
      = false
    ∧ (urlparse (pyRstripSlash "https://api.example.com" ++ "/api/test")).netloc.data.contains ']'
      = false
    ∧ (urlparse (pyRstripSlash "https://api.example.com" ++ "/api/test")).netloc.data.all
        (fun c => c.toNat ≤ 127) = true
    ∧ ((mkHmacClient "TestClient" "TestSecret" "https://api.example.com" 0).create_authenticated_headersE
          1234567890 "GET" "/api/test" none
        = HeadersOutcome.ok ((mkHmacClient "TestClient" "TestSecret" "https://api.example.com" 0).create_authenticated_headers
            1234567890 "GET" "/api/test" none)
      ∧ (List.lookup "Host"
          ((mkHmacClient "TestClient" "TestSecret" "https://api.example.com" 0).create_authenticated_headers
            1234567890 "GET" "/api/test" none)).isSome = true
      ∧ (List.lookup TIME_STAMP_HEADER_NAME
          ((mkHmacClient "TestClient" "TestSecret" "https://api.example.com" 0).create_authenticated_headers
            1234567890 "GET" "/api/test" none)).isSome = true
      ∧ (List.lookup CONTENT_HASH_HEADER_NAME
          ((mkHmacClient "TestClient" "TestSecret" "https://api.example.com" 0).create_authenticated_headers
            1234567890 "GET" "/api/test" none)).isSome = true
      ∧ (List.lookup "Authorization"
          ((mkHmacClient "TestClient" "TestSecret" "https://api.example.com" 0).create_authenticated_headers
            1234567890 "GET" "/api/test" none)).isSome = true
      ∧ (mkHmacClient "" "" "https://api.example.com" 0).create_authenticated_headersE
          1234567890 "GET" "/api/test" none
          = HeadersOutcome.ok ((mkHmacClient "" "" "https://api.example.com" 0).create_authenticated_headers
              1234567890 "GET" "/api/test" none)
      ∧ List.lookup "Authorization"
          ((mkHmacClient "" "" "https://api.example.com" 0).create_authenticated_headers
            1234567890 "GET" "/api/test" none)
          = some "HMAC Client=&SignedHeaders=host;x-timestamp;x-content-sha256&Signature=Lusm5IfJG3OXgA7B2QIskK21WZ3lS75V59yDNd0ZfQo=") :=
  ⟨by decide, by decide, by decide,
   c9_signing_total_amended "TestClient" "TestSecret" "https://api.example.com" 0 1234567890
     "GET" "/api/test" none (by decide) (by decide) (by decide)⟩

/-- C10: the Signature embedded in the emitted Authorization header equals
generate_signature applied to the string to sign rebuilt from the Host,
x-timestamp and x-content-sha256 values of the same mapping, so a verifier
holding the secret reproduces the signature from the emitted headers. -/
theorem c10_verifier_roundtrip
    (c : HmacClient) (now : Nat) (m p : String) (b : Option String) :
    List.lookup "Authorization" (c.create_authenticated_headers now m p b)
      = some (c.generate_authorization_header DEFAULT_SIGNED_HEADERS
          (c.generate_signature (create_string_to_sign m
            ((urlparse (c.base_url ++ p)).path ++
              (if (urlparse (c.base_url ++ p)).query = "" then ""
               else "?" ++ (urlparse (c.base_url ++ p)).query))
            [(List.lookup "Host" (c.create_authenticated_headers now m p b)).getD "",
             (List.lookup TIME_STAMP_HEADER_NAME
               (c.create_authenticated_headers now m p b)).getD "",
             (List.lookup CONTENT_HASH_HEADER_NAME
               (c.create_authenticated_headers now m p b)).getD ""]))) := by
  cases hb : pyTruthy b <;>
    simp [HmacClient.create_authenticated_headers, hb, List.lookup] <;> rfl

end HashGate
